import Mathlib

/-
Shallow embedding of the representation algebra of `harold/_classes.py`:
the `Transfer` and `State` model classes, their argument validation, the
arithmetic dispatch relevant to the claims, and the entry points of the
conversion functions and the transmission-zero solver.  Real scalars are
embedded as rationals; numpy arrays as row lists; fallible code returns
`Except`.  Helper functions of `_polynomial_ops.py` are not shipped with the
sources; where their values matter they are modelled from the spec, where
they do not they enter as parameters.
-/

namespace Harold

/-- Matrices of the source (2-D numpy arrays) are embedded as row lists of
rationals. -/
abbrev Mat := List (List ℚ)

/-- Number of rows, `arr.shape[0]`. -/
def rowsOf (a : Mat) : Nat := a.length

/-- Number of columns, `arr.shape[1]`; numpy arrays are rectangular, so the
first row is representative. -/
def colsOf (a : Mat) : Nat := (a.headD []).length

/-- Total element count, `arr.size`. -/
def saSize (a : Mat) : Nat := (a.map List.length).sum

/-- Embedding of `np.any(a)`: some entry is nonzero. -/
def anyMat (a : Mat) : Bool := a.any (fun r => r.any (fun x => x != 0))

/-- Row of `n` zeros. -/
def zerosRow (n : Nat) : List ℚ := List.replicate n 0

/-- Matrix of ones of the given shape, `np.ones((p, m))`. -/
def onesMat (p m : Nat) : Mat := List.replicate p (List.replicate m 1)

/-- Column `j` of a matrix. -/
def getCol (a : Mat) (j : Nat) : List ℚ := a.map (fun r => r.getD j 0)

/-- Dot product of two equally long lists. -/
def dotProd (u v : List ℚ) : ℚ := (List.zipWith (fun x y => x * y) u v).sum

/-- Matrix product `a @ b` for compatible shapes. -/
def matMul (a b : Mat) : Mat :=
  a.map (fun r => (List.range (colsOf b)).map (fun j => dotProd r (getCol b j)))

/-- Entrywise matrix sum (numpy `+` on arrays of equal shape). -/
def matAdd (a b : Mat) : Mat := List.zipWith (List.zipWith (fun x y => x + y)) a b

/-- Entrywise matrix quotient (numpy `/` on arrays of equal shape). -/
def matDivEntry (a b : Mat) : Mat := List.zipWith (List.zipWith (fun x y => x / y)) a b

/-- Block-diagonal stacking, `scipy.linalg.block_diag(a, b)`. -/
def blockDiag (a b : Mat) : Mat :=
  a.map (fun r => r ++ zerosRow (colsOf b)) ++ b.map (fun r => zerosRow (colsOf a) ++ r)

/-- Vertical stacking, `np.vstack((a, b))`. -/
def vstack (a b : Mat) : Mat := a ++ b

/-- Horizontal stacking, `np.hstack((a, b))` for equal row counts. -/
def hstack (a b : Mat) : Mat := List.zipWith (fun r s => r ++ s) a b

/-- Error kinds of the distinct raise sites that the embedded code reaches. -/
inductive Err where
  | raggedRows
  | emptyArg
  | numDenShape
  | noncausal
  | gainNeedsScalars
  | shapeChange
  | samplingMismatch
  | addShape
  | indexOOR
  | broadcast
  deriving DecidableEq

/-- Modelled from the spec: `haroldtrimleftzeros` of `_polynomial_ops.py` is not
under `src/`; per the spec it removes leading (most-significant) zero
coefficients and the zero polynomial collapses to the single entry `[0]`. -/
def haroldtrimleftzeros (l : List ℚ) : List ℚ :=
  let t := l.dropWhile (fun x => x == 0)
  if t.isEmpty then [0] else t

/-- Degree the spec assigns to a coefficient sequence: length after trimming
leading zeros, minus one. -/
def specDegree (l : List ℚ) : Nat := (haroldtrimleftzeros l).length - 1

/-- Modelled from the spec: `haroldpolyadd` of `_polynomial_ops.py` adds
coefficient sequences aligned at the constant (rightmost) coefficient. -/
def haroldpolyadd (a b : List ℚ) : List ℚ :=
  let n := max a.length b.length
  List.zipWith (fun x y => x + y)
    (zerosRow (n - a.length) ++ a) (zerosRow (n - b.length) ++ b)

/-- Embedding of `np.convolve` on coefficient sequences: polynomial product. -/
def convolve (a b : List ℚ) : List ℚ :=
  (List.range (a.length + b.length - 1)).map (fun k =>
    ((List.range (k + 1)).map (fun i => a.getD i 0 * b.getD (k - i) 0)).sum)

/-- Universe of raw numerator/denominator arguments that the claims exercise:
`None`, a scalar, a flat list, a list of lists of coefficient rows, and a
2-D numpy array. -/
inductive PyVal where
  | noneV
  | scalarV (x : ℚ)
  | flatV (xs : List ℚ)
  | lolV (xss : List (List (List ℚ)))
  | arrV (a : Mat)
  deriving DecidableEq

/-- Canonical containers produced by `Transfer.validate_arguments`: a 2-D array
in the SISO context, a list of lists of coefficient rows in the MIMO
context. -/
inductive NumData where
  | sa (a : Mat)
  | ml (e : List (List (List ℚ)))
  deriving DecidableEq

/-- Classification of one raw argument by the first loop of
`Transfer.validate_arguments`: absent, SISO-regularized, or MIMO-regularized. -/
inductive Arg where
  | noneA
  | sisoA (a : Mat)
  | mimoA (e : List (List (List ℚ)))
  deriving DecidableEq

/-- First phase of `Transfer.validate_arguments` (lines 1131-1264): regularize a
single raw argument and record the recognized MIMO/SISO/None context.  A list
of lists with a single entry collapses to SISO; ragged MIMO rows are rejected
(`max(m) == min(m)` over the row lengths); a 2-D array with both dimensions
above one becomes a MIMO static-gain grid of one-element rows. -/
def classify : PyVal → Except Err Arg
  | .noneV => .ok .noneA
  | .lolV xss =>
      if xss.length = 0 then .error .emptyArg
      else if xss.length = 1 ∧ (xss.headD []).length = 1 then
        .ok (.sisoA [(xss.headD []).headD []])
      else if (xss.map List.length).all (fun k => k = (xss.headD []).length) then
        .ok (.mimoA xss)
      else .error .raggedRows
  | .flatV xs => .ok (.sisoA [xs])
  | .arrV a =>
      if 1 < rowsOf a ∧ 1 < colsOf a then
        .ok (.mimoA (a.map (fun r => r.map (fun x => [x]))))
      else .ok (.sisoA a)
  | .scalarV x => .ok (.sisoA [[x]])

/-- Shape, static-gain flag and result assembly at the end of
`Transfer.validate_arguments` (lines 1514-1535): the shape is read from the
numerator container, the gain flag from the denominator (all entries of
length one, or a single-element SISO array). -/
def finishRes (n d : NumData) : NumData × NumData × (Nat × Nat) × Bool :=
  let shape := match n with
    | .ml e => (e.length, (e.headD []).length)
    | .sa _ => ((1 : Nat), (1 : Nat))
  let gain := match d with
    | .ml e => (e.flatten.map List.length).foldl max 0 == 1
    | .sa a => saSize a == 1
  (n, d, shape, gain)

/-- Final SISO branch of `Transfer.validate_arguments` (lines 1493-1512): the
causality test compares the raw element counts of the regularized arrays,
with no trimming of leading zero coefficients. -/
def sisoFinish (s d : Mat) : Except Err (NumData × NumData × (Nat × Nat) × Bool) :=
  if saSize d < saSize s then .error .noncausal
  else .ok (finishRes (.sa s) (.sa d))

/-- Second phase of `Transfer.validate_arguments` (lines 1280-1512): reconcile
the two classified arguments.  Both MIMO: equal grid shapes, then a per-entry
causality check on trimmed lengths.  One MIMO: an absent side is synthesized
as ones, a SISO side is causality-checked then broadcast to every entry.
Both SISO: an absent numerator becomes `[[1]]`, an absent denominator `[[1]]`,
then the untrimmed size comparison above. -/
def combine : Arg → Arg → Except Err (NumData × NumData × (Nat × Nat) × Bool)
  | .mimoA nn, .mimoA dd =>
      let nShape := (nn.length, (nn.headD []).length)
      let dShape := (dd.length, (dd.headD []).length)
      if nShape ≠ dShape then .error .numDenShape
      else
        let nl := nn.flatten.map haroldtrimleftzeros
        let dl := dd.flatten.map haroldtrimleftzeros
        if (nl.zip dl).any (fun q => decide (q.2.length < q.1.length)) then
          .error .noncausal
        else .ok (finishRes (.ml nn) (.ml dd))
  | .noneA, .mimoA dd =>
      let p := dd.length
      let m := (dd.headD []).length
      .ok (finishRes (.ml (List.replicate p (List.replicate m [1]))) (.ml dd))
  | .sisoA s, .mimoA dd =>
      let numDeg := (haroldtrimleftzeros s.flatten).length
      if dd.flatten.any (fun e => decide (e.length < numDeg)) then .error .noncausal
      else
        let flat := s.flatten
        .ok (finishRes (.ml (dd.map (fun row => row.map (fun _ => flat)))) (.ml dd))
  | .mimoA nn, .noneA =>
      if nn.flatten.any (fun e => decide (2 ≤ e.length)) then .error .gainNeedsScalars
      else
        let p := nn.length
        let m := (nn.headD []).length
        .ok (finishRes (.ml nn) (.ml (List.replicate p (List.replicate m [1]))))
  | .mimoA nn, .sisoA d =>
      let denDeg := (haroldtrimleftzeros d.flatten).length
      if nn.flatten.any (fun e => decide (denDeg < e.length)) then .error .noncausal
      else
        let flat := d.flatten
        .ok (finishRes (.ml nn) (.ml (nn.map (fun row => row.map (fun _ => flat)))))
  | .noneA, .noneA => sisoFinish [[1]] []
  | .noneA, .sisoA d => sisoFinish [[1]] d
  | .sisoA s, .noneA => sisoFinish s [[1]]
  | .sisoA s, .sisoA d => sisoFinish s d

/-- Embedding of `Transfer.validate_arguments` (lines 1016-1535): classify the
numerator and the denominator, then reconcile the recognized contexts,
returning the canonical containers, the system shape, and the static-gain
flag. -/
def validate_arguments (num den : PyVal) :
    Except Err (NumData × NumData × (Nat × Nat) × Bool) := do
  let an ← classify num
  let ad ← classify den
  combine an ad

/-- Canonical stored data re-presented as a raw argument, as the setters do when
they pass `self._den` or `self._num` back into `validate_arguments`. -/
def NumData.toPy : NumData → PyVal
  | .sa a => .arrV a
  | .ml e => .lolV e

/-- Data of a `Transfer` instance: canonical numerator and denominator
containers, the fixed shape, the static-gain flag and the sampling period
(`None`, embedded as `none`, means continuous time). -/
structure TransferModel where
  num : NumData
  den : NumData
  shape : Nat × Nat
  isgain : Bool
  dt : Option ℚ
  deriving DecidableEq

/-- Embedding of the `Transfer.num` setter (lines 337-350): the new value is
validated against the stored denominator; a validated shape different from the
fixed shape raises the shape `IndexError`; only in the success branch is the
numerator replaced (the subsequent `_recalc` recomputes derived poles/zeros
and does not touch the numerator/denominator data). -/
def numSet (G : TransferModel) (value : PyVal) : Except Err TransferModel :=
  match validate_arguments value G.den.toPy with
  | .error e => .error e
  | .ok (userNum, _, userShape, _) =>
      if userShape ≠ G.shape then .error .shapeChange
      else .ok { G with num := userNum }

/-- Data of a `State` instance: the four realization matrices and the sampling
period. -/
structure StateSys where
  a : Mat
  b : Mat
  c : Mat
  d : Mat
  dt : Option ℚ
  deriving DecidableEq

/-- Data of a dynamic SISO `Transfer`: flat numerator and denominator
coefficient sequences and the sampling period. -/
structure SISOT where
  num : List ℚ
  den : List ℚ
  dt : Option ℚ
  deriving DecidableEq

/-- Embedding of the dynamic SISO branch of `Transfer.__add__`
(lines 483-519).  `haroldlcm` lives in `_polynomial_ops.py`, which is not under
`src/`; it enters as a parameter returning the least common multiple and the
two cofactor multipliers.  Both return sites build the sum as `Transfer(0, 1)`
or `Transfer(newnum, lcm)` with the constructor default `dt=False`, so the
result is continuous time. -/
def transfer_add_siso_dyn (hlcm : List ℚ → List ℚ → List ℚ × List ℚ × List ℚ)
    (G1 G2 : SISOT) : Except Err SISOT :=
  if G1.dt ≠ G2.dt then .error .samplingMismatch
  else if (haroldpolyadd (convolve G1.num (hlcm G1.den G2.den).2.1)
            (convolve G2.num (hlcm G1.den G2.den).2.2)).countP (fun x => x != 0) = 0
  then .ok ⟨[0], [1], none⟩
  else .ok ⟨haroldpolyadd (convolve G1.num (hlcm G1.den G2.den).2.1)
              (convolve G2.num (hlcm G1.den G2.den).2.2),
            (hlcm G1.den G2.den).1, none⟩

/-- Shape of a dynamic `State`, `(C rows, B cols)`. -/
def stateShape (G : StateSys) : Nat × Nat := (rowsOf G.c, colsOf G.b)

/-- Embedding of the dynamic branch of `State.__add__` (lines 1949-1994):
sampling periods and shapes are checked, then the sum is assembled as
`State(block_diag(a1, a2), vstack(b1, b2), hstack(c1, c2), d1 + d2)` with the
constructor default `dt=False`, so the result is continuous time. -/
def state_add_dyn (G1 G2 : StateSys) : Except Err StateSys :=
  if G1.dt ≠ G2.dt then .error .samplingMismatch
  else if stateShape G1 ≠ stateShape G2 then .error .addShape
  else .ok ⟨blockDiag G1.a G2.a, vstack G1.b G2.b, hstack G1.c G2.c,
            matAdd G1.d G2.d, none⟩

/-- Python `+` applied to two canonical numerator containers, as
`Transfer.__add__` does at line 505 (`self._num + other.num`): numpy arrays
(SISO) add entrywise, lists of lists (MIMO) concatenate their rows.  Two
equal-shape gains always carry the same container kind; the mixed arms are
unreachable and return the left operand. -/
def pyPlusNum : NumData → NumData → NumData
  | .sa a, .sa b => .sa (matAdd a b)
  | .ml a, .ml b => .ml (a ++ b)
  | x, _ => x

/-- Embedding of the static-gain branch of `Transfer.__add__`
(lines 483-506): after the sampling and shape guards the result is
`Transfer(self._num + other.num, dt=self._dt)`, so the summed (for SISO) or
concatenated (for MIMO) numerator is re-validated with an absent denominator. -/
def transfer_add_gain_gain (G1 G2 : TransferModel) : Except Err TransferModel :=
  if G1.dt ≠ G2.dt then .error .samplingMismatch
  else if G1.shape ≠ G2.shape then .error .addShape
  else
    match validate_arguments (pyPlusNum G1.num G2.num).toPy .noneV with
    | .error e => .error e
    | .ok (n, d, sh, g) => .ok ⟨n, d, sh, g, G1.dt⟩

/-- Bounds-checked write `a[i, j] = v`; numpy raises `IndexError` outside the
array. -/
def setEntry (a : Mat) (i j : Nat) (v : ℚ) : Except Err Mat :=
  if i < a.length ∧ j < (a.getD i []).length then
    .ok (a.set i ((a.getD i []).set j v))
  else .error .indexOOR

/-- Embedding of the static-gain branch of `transfer_to_state`
(lines 2952-2963): `A`, `B`, `C` are empty and, in the MIMO case, `D` is
allocated as `np.empty((m, p))` (uninitialized contents modelled as zeros) and
then filled entry by entry over `rows < p`, `cols < m` with the entrywise
quotients.  The SISO case divides the two arrays directly. -/
def transfer_to_state_gain (p m : Nat) (num den : Mat) :
    Except Err (Mat × Mat × Mat × Mat) := do
  if 1 < max m p then
    let d0 : Mat := List.replicate m (List.replicate p 0)
    let dfin ← (List.range p).foldlM (fun acc rows =>
        (List.range m).foldlM (fun acc2 cols =>
            setEntry acc2 rows cols
              ((num.getD rows []).getD cols 0 / (den.getD rows []).getD cols 1))
          acc) d0
    pure ([], [], [], dfin)
  else
    pure ([], [], [], matDivEntry num den)

/-- Result of `state_to_transfer`: either a constructed `Transfer` object or
the raw numerator/denominator pair. -/
inductive StoTResult where
  | transferObj (dmat : Mat) (dt : Option ℚ)
  | polys (num den : Mat)
  deriving DecidableEq

/-- Semantics of the guard `output.lower() is 'polynomials'` (lines 2817 and
2884): `lower()` always allocates a fresh string object, and the object
identity of a fresh string against a pre-existing literal is `False` under
CPython regardless of the contents, so the guard denotes the constant false
function of both strings. -/
def pyIsFreshLower (_out _lit : String) : Bool := false

/-- Embedding of the static-gain branch of `state_to_transfer`
(lines 2816-2819): with the identity-comparison guard the `polynomials` path
is unreachable and `Transfer(D, dt=ZR)` is returned. -/
def state_to_transfer_gain (output : String) (dmat : Mat) (dt : Option ℚ) :
    StoTResult :=
  if pyIsFreshLower output ("polynomials") then
    .polys dmat (onesMat (rowsOf dmat) (colsOf dmat))
  else .transferObj dmat dt

/-- Numpy in-place slice assignment `a[r0:, :c1] = v` with broadcasting: the
value block must match the rectangular region along each axis or have extent
one there; otherwise the assignment raises a broadcast `ValueError`. -/
def setSliceBroadcast (a : Mat) (r0 c1 : Nat) (v : Mat) : Except Err Mat :=
  let rr := a.length - r0
  let vr := v.length
  let vc := colsOf v
  if (vr = rr ∨ vr = 1) ∧ (vc = c1 ∨ vc = 1) then
    .ok (((List.range a.length).zip a).map (fun q =>
      if q.1 < r0 then q.2
      else ((List.range q.2.length).zip q.2).map (fun w =>
        if w.1 < c1 then
          (v.getD (if vr = 1 then 0 else q.1 - r0) []).getD
            (if vc = 1 then 0 else w.1) 0
        else w.2)))
  else .error .broadcast

/-- Embedding of the dynamic `State @ State` assembly (lines 2260-2267): the
block-diagonal `A` receives the coupling block `B1 @ C2` through the slice
assignment `multa[n1:, :n2]`, then `B = vstack(B1 @ D2, B2)`,
`C = hstack(C1, D1 @ C2)`, `D = D1 @ D2`. -/
def state_matmul_dyn (A1 B1 C1 D1 A2 B2 C2 D2 : Mat) :
    Except Err (Mat × Mat × Mat × Mat) := do
  let n1 := A1.length
  let n2 := A2.length
  let multa ← setSliceBroadcast (blockDiag A1 A2) n1 n2 (matMul B1 C2)
  pure (multa, vstack (matMul B1 D2) B2, hstack C1 (matMul D1 C2), matMul D1 D2)

/-- Grid of optional entries standing for the `newnum`/`newden` lists of
`None` placeholders; each stored value is a numerator/denominator pair. -/
abbrev EntryGrid := List (List (Option (Mat × Mat)))

/-- Bounds-checked write into an entry grid; a row or column index beyond the
list lengths raises `IndexError` exactly as Python list indexing does. -/
def gridSet (g : EntryGrid) (i j : Nat) (v : Mat × Mat) : Except Err EntryGrid :=
  if i < g.length ∧ j < (g.getD i []).length then
    .ok (g.set i ((g.getD i []).set j (some v)))
  else .error .indexOOR

/-- Embedding of the MIMO `Transfer @ ndarray` loop (lines 822-832): grids of
`tp × tm` placeholders are allocated, and every iteration computes the
contracted entry `t_G` (a Transfer-arithmetic value irrelevant to the control
flow, so it enters as the parameter `tG`) and then writes it at the fixed
indices `newnum[tp][tm]` — the loop counters `r`, `c` are not used as write
indices.  The two parallel grids are merged into one grid of pairs, since both
writes target the same cell. -/
def transfer_matmul_array_loop (tG : Nat → Nat → Mat × Mat) (tp tm : Nat) :
    Except Err EntryGrid :=
  let g0 : EntryGrid := List.replicate tp (List.replicate tm none)
  (List.range tp).foldlM (fun g r =>
    (List.range tm).foldlM (fun g2 c =>
      let v := tG r c
      gridSet g2 tp tm v) g) g0

/-- Embedding of `transmission_zeros` (lines 3132-3178) up to its first branch:
the rank of `D` is computed (through the external `np.linalg.matrix_rank`,
here a parameter), then a `B` or `C` that is identically zero short-circuits to
an empty zero set; all later branches reach external rank-revealing and QZ
factorizations and enter as the parameter `rest`. -/
def transmission_zeros (rank : Mat → Nat)
    (rest : Nat → Mat → Mat → Mat → Mat → Except Err (List ℚ))
    (A B C D : Mat) : Except Err (List ℚ) :=
  let r := rank D
  if !(anyMat B) || !(anyMat C) then .ok []
  else rest r A B C D

/-- Claim C1 (code evaluation at the failing input): `state_to_transfer` on the
static gain `D = [[2]]` with `output` set to `polynomials` returns a `Transfer`
object and never the numerator/denominator pair, because the branch guard is
an object-identity test against a fresh string and is always false. -/
theorem C1_polynomials_output_returns_transfer :
    state_to_transfer_gain ("polynomials") [[2]] (some 1)
      = StoTResult.transferObj [[2]] (some 1)
    ∧ ∀ n d : Mat, state_to_transfer_gain ("polynomials") [[2]] (some 1)
      ≠ StoTResult.polys n d := by
  refine ⟨rfl, ?_⟩
  intro n d h
  exact StoTResult.noConfusion h

/-- Claim C2 (code evaluation at the failing input): the static-gain branch of
`transfer_to_state` on a 2-output, 1-input gain allocates `D` with the
transposed shape `(m, p) = (1, 2)` and raises `IndexError` while writing the
entry at row 1, instead of returning the claimed `(2, 1)` matrix of entrywise
quotients. -/
theorem C2_static_gain_shape_transposed :
    transfer_to_state_gain 2 1 [[1], [2]] [[1], [1]] = Except.error Err.indexOOR := by
  rfl

/-- Claim C3 (code evaluation at the failing input): the dynamic `State @ State`
assembly writes the coupling block `B1 @ C2` into the lower-left slice
`multa[n1:, :n2]`.  With 2 and 1 states the `(2, 1)` block cannot broadcast
into the `(1, 1)` region and the call fails; with one state on each side the
call succeeds but couples the states backwards, so the Markov parameter
`C A B` of the produced realization is 0 while the series interconnection of
the two systems (coupling in the upper-right block) gives 1. -/
theorem C3_series_coupling_misplaced :
    state_matmul_dyn [[0,1],[-1,-1]] [[0],[1]] [[1,0]] [[0]] [[-1]] [[1]] [[1]] [[0]]
      = Except.error Err.broadcast
    ∧ state_matmul_dyn [[-1]] [[1]] [[1]] [[0]] [[-2]] [[1]] [[1]] [[0]]
      = Except.ok ([[-1,0],[1,-2]], [[0],[1]], [[1,0]], [[0]])
    ∧ matMul [[1,0]] (matMul [[-1,0],[1,-2]] [[0],[1]]) = [[0]]
    ∧ matMul [[1,0]] (matMul [[-1,1],[0,-2]] [[0],[1]]) = [[1]] := by
  refine ⟨rfl, ?_, ?_, ?_⟩
  · norm_num [state_matmul_dyn, setSliceBroadcast, blockDiag, vstack, hstack,
      matMul, dotProd, getCol, rowsOf, colsOf, zerosRow,
      List.range_succ, List.range_zero, List.zip_cons_cons]
  · norm_num [matMul, dotProd, getCol, colsOf,
      List.range_succ, List.range_zero]
  · norm_num [matMul, dotProd, getCol, colsOf,
      List.range_succ, List.range_zero]

/-- Claim C4 (code evaluation at the failing input): the MIMO
`Transfer @ ndarray` loop writes every contracted entry at the fixed indices
`newnum[tp][tm]`, which lie one past the allocated grid, so the first loop
iteration raises `IndexError` for every possible value of the per-entry
computation instead of filling the claimed `(tp, tm)` result. -/
theorem C4_matmul_array_write_out_of_range (tG : Nat → Nat → Mat × Mat) :
    transfer_matmul_array_loop tG 2 2 = Except.error Err.indexOOR := by
  rfl

/-- Claim C5 (code evaluation at the failing input): adding two dynamic SISO
transfers that share the sampling period 1/10 succeeds but returns a
continuous-time model (`dt` is `None`), for every implementation of the
polynomial lcm helper, and likewise the dynamic `State + State` sum of two
1/10-sampled systems comes back continuous: both construction sites omit the
`dt` argument. -/
theorem C5_addition_drops_sampling_period :
    (∀ hlcm, Except.map SISOT.dt
        (transfer_add_siso_dyn hlcm ⟨[1], [1,1], some (1/10)⟩ ⟨[1], [1,1], some (1/10)⟩)
      = Except.ok none)
    ∧ state_add_dyn ⟨[[-1]], [[1]], [[1]], [[0]], some (1/10)⟩
        ⟨[[-1]], [[1]], [[1]], [[0]], some (1/10)⟩
      = Except.ok ⟨[[-1,0],[0,-1]], [[1],[1]], [[1,1]], [[0]], none⟩ := by
  constructor
  · intro hlcm
    unfold transfer_add_siso_dyn
    rw [if_neg (by simp)]
    split
    · rfl
    · rfl
  · norm_num [state_add_dyn, stateShape, rowsOf, colsOf, blockDiag, vstack,
      hstack, matAdd, zerosRow, List.replicate]

/-- Claim C6 (code evaluation at the failing input): adding the two 1-by-2
static gains `[[1, 2]]` and `[[3, 4]]` evaluates `self._num + other.num` on
the list-of-lists containers, which concatenates the rows, so the sum is a
2-by-2 static gain holding the stacked entries instead of the 1-by-2 entrywise
sum `[[4, 6]]`. -/
theorem C6_gain_addition_concatenates :
    transfer_add_gain_gain
        ⟨.ml [[[1],[2]]], .ml [[[1],[1]]], (1,2), true, none⟩
        ⟨.ml [[[3],[4]]], .ml [[[1],[1]]], (1,2), true, none⟩
      = Except.ok ⟨.ml [[[1],[2]],[[3],[4]]], .ml [[[1],[1]],[[1],[1]]],
                   (2,2), true, none⟩
    ∧ ((2,2) : Nat × Nat) ≠ (1,2) := by
  exact ⟨rfl, by decide⟩

/-- Claim C7 counterexample: the numerator `[0, 0, 1]` has spec degree 0 and
the denominator `[1, 1]` has spec degree 1, so by the claim the construction
must succeed; the code nevertheless rejects the pair with the causality error,
because the SISO check compares untrimmed lengths. -/
theorem C7_trimmed_causality_counterexample :
    validate_arguments (PyVal.flatV [0,0,1]) (PyVal.flatV [1,1])
      = Except.error Err.noncausal
    ∧ specDegree [0,0,1] ≤ specDegree [1,1] := by
  exact ⟨rfl, by decide⟩

/-- Claim C7 (amended): for SISO pairs of coefficient sequences, validation
fails with the causality error exactly when the raw numerator length exceeds
the raw denominator length, with no trimming of leading zero coefficients. -/
theorem C7_causality_checks_untrimmed_lengths (a b : List ℚ) :
    validate_arguments (PyVal.flatV a) (PyVal.flatV b) = Except.error Err.noncausal
      ↔ b.length < a.length := by
  have hred : validate_arguments (PyVal.flatV a) (PyVal.flatV b)
      = sisoFinish [a] [b] := rfl
  rw [hred]
  unfold sisoFinish
  by_cases hlt : saSize [b] < saSize [a]
  · have hb : b.length < a.length := by simpa [saSize] using hlt
    rw [if_pos hlt]
    simp [hb]
  · have hb : ¬ b.length < a.length := by simpa [saSize] using hlt
    rw [if_neg hlt]
    simp [hb]

/-- Claim C8: whenever the new numerator value validates against the stored
denominator to a shape different from the fixed shape of the model, the `num`
setter fails with the shape error and produces no updated model, leaving the
original numerator and denominator untouched. -/
theorem C8_num_setter_rejects_shape_change (G : TransferModel) (value : PyVal)
    (r : NumData × NumData × (Nat × Nat) × Bool)
    (hv : validate_arguments value G.den.toPy = Except.ok r)
    (hs : r.2.2.1 ≠ G.shape) :
    numSet G value = Except.error Err.shapeChange := by
  rcases r with ⟨n, d, s, g⟩
  unfold numSet
  rw [hv]
  exact if_pos hs

/-- Claim C8 witness: a SISO transfer with denominator `[1, 1]` given the
2-by-2 gain matrix as its new numerator; the value validates to shape
`(2, 2)`, differing from `(1, 1)`, and the setter rejects it with the shape
error. -/
theorem C8_num_setter_rejects_shape_change_witness :
    validate_arguments (PyVal.arrV [[1,2],[3,4]])
        (NumData.toPy (NumData.sa [[1,1]]))
      = Except.ok (NumData.ml [[[1],[2]],[[3],[4]]],
                   NumData.ml [[[1,1],[1,1]],[[1,1],[1,1]]], (2,2), false)
    ∧ numSet ⟨NumData.sa [[1]], NumData.sa [[1,1]], (1,1), false, none⟩
        (PyVal.arrV [[1,2],[3,4]])
      = Except.error Err.shapeChange := by
  refine ⟨rfl, ?_⟩
  exact C8_num_setter_rejects_shape_change
    ⟨NumData.sa [[1]], NumData.sa [[1,1]], (1,1), false, none⟩
    (PyVal.arrV [[1,2],[3,4]])
    (NumData.ml [[[1],[2]],[[3],[4]]],
     NumData.ml [[[1,1],[1,1]],[[1,1],[1,1]]], (2,2), false)
    rfl (by decide)

/-- Claim C9: for every realization whose `B` or `C` is identically zero,
`transmission_zeros` short-circuits to the empty zero set without failing, for
every implementation of the external rank computation and of the downstream
staircase/QZ machinery. -/
theorem C9_transmission_zeros_degenerate (rank : Mat → Nat)
    (rest : Nat → Mat → Mat → Mat → Mat → Except Err (List ℚ))
    (A B C D : Mat) (h : anyMat B = false ∨ anyMat C = false) :
    transmission_zeros rank rest A B C D = Except.ok [] := by
  rcases h with h | h <;> simp [transmission_zeros, h]

/-- Claim C9 witness: a strictly proper two-state realization with `B`
identically zero yields the empty zero set. -/
theorem C9_transmission_zeros_degenerate_witness :
    (anyMat [[0],[0]] = false ∨ anyMat [[1,0]] = false)
    ∧ transmission_zeros (fun _ => 0) (fun _ _ _ _ _ => Except.error Err.indexOOR)
        [[0,1],[-2,-3]] [[0],[0]] [[1,0]] [[0]] = Except.ok [] := by
  refine ⟨Or.inl (by decide), ?_⟩
  exact C9_transmission_zeros_degenerate _ _ _ _ _ _ (Or.inl (by decide))

end Harold
